import Mathlib

set_option maxRecDepth 4000

/-!
Shallow embedding of the clipboard-monitor core of `src/q3.py` (v4.5.14).

The embedding keeps the source's names where Lean allows it:
`format_size`, `get_path_size` (source: `_get_path_size`),
`process_clipboard_data`, `set_cooldown`, `on_clipboard_changed`,
`show_popup`, `close_popup`, `slide_out`, `start_lifecycle`,
`activate_sticky_mode`, `deactivate_sticky_mode`, `toggle_sticky_mode`,
`on_calculation_finished`.

Machine integers are `Nat`; Python's float divisions `size / 1024` are
embedded as exact rational arithmetic on `Nat` (for byte counts below
2^53 the Python doubles are exact, so the two agree; `round` is Python's
round-half-to-even, embedded as `divRoundHalfEven`).  Qt timers are
embedded by explicit timestamps: a single-shot `QTimer.singleShot(d, f)`
becomes a recorded due-time `now + d`, and due timers are fired at the
start of the next event-handler invocation (`fireDueClears`), which is
observationally equivalent for the serialized Qt event loop.
-/

namespace Q3

/-- Round-half-to-even of the exact rational `a / b` (Python's `round` on a
float that holds `a / b` exactly). -/
def divRoundHalfEven (a b : Nat) : Nat :=
  let q := a / b
  let r := a % b
  if 2 * r < b then q
  else if b < 2 * r then q + 1
  else if q % 2 = 0 then q else q + 1

/-- Render the exact rational `a / b` with one decimal digit, rounding
half-to-even (Python's `f"{x:.1f}"` on a float holding `a / b` exactly). -/
def fmt1dec (a b : Nat) : String :=
  let t := divRoundHalfEven (10 * a) b
  toString (t / 10) ++ "." ++ toString (t % 10)

/-- `ClipboardMonitor.format_size`, src/q3.py:334-341. -/
def format_size : Option Nat → String
  | none => "N/A"
  | some n =>
    if n < 1024 then toString n ++ " <i>b</i>"
    else if n < 1024 * 1024 then toString (divRoundHalfEven n 1024) ++ " <i>K</i>"
    else if n < 1024 * 1024 * 1024 then fmt1dec n (1024 * 1024) ++ " <i>Mb</i>"
    else fmt1dec n (1024 * 1024 * 1024) ++ " <i>Gb</i>"

/-!
Filesystem model for `_get_path_size` (src/q3.py:37-59).  A path points at:
* `file size statOk` — a regular file; `statOk = false` means `getsize` /
  `entry.stat` raises `OSError`/`PermissionError` for it;
* `dir scanOk children` — a directory; `scanOk = false` means `scandir`
  raises for it;
* `other` — an existing path that is neither a regular file nor a
  directory, or a nonexistent path (both take the `else: return 0` branch);
* `broken` — a path for which the `isfile`/`isdir` type checks themselves
  raise (caught by the outermost handler, which returns 0).
Symlinks are not modelled: every entry is the real node it denotes.
-/
mutual
inductive FSEntry where
  | file (size : Nat) (statOk : Bool)
  | dir (scanOk : Bool) (children : FSList)
  | other
  | broken

inductive FSList where
  | nil
  | cons (e : FSEntry) (es : FSList)
end

mutual
/-- `_get_path_size`, src/q3.py:37-59: a file contributes its size when its
stat succeeds and 0 otherwise; a scannable directory contributes the sum
over its entries (unreadable entries are skipped via `continue`); an
unscannable directory, a non-file non-dir path and a path whose type check
raises all contribute 0.  Totality of this definition is the termination
half of the aggregation claims. -/
def get_path_size : FSEntry → Nat
  | .file size statOk => if statOk then size else 0
  | .dir scanOk children => if scanOk then get_list_size children else 0
  | .other => 0
  | .broken => 0

/-- Sum of `get_path_size` over the entries of one directory (the
`for entry in entries` loop of src/q3.py:45-52). -/
def get_list_size : FSList → Nat
  | .nil => 0
  | .cons e es => get_path_size e + get_list_size es
end

mutual
/-- All file bytes under an entry, ignoring accessibility. -/
def totalBytes : FSEntry → Nat
  | .file size _ => size
  | .dir _ children => totalBytesList children
  | .other => 0
  | .broken => 0

def totalBytesList : FSList → Nat
  | .nil => 0
  | .cons e es => totalBytes e + totalBytesList es
end

mutual
/-- Every stat and every directory scan under the entry succeeds. -/
def allAccessible : FSEntry → Bool
  | .file _ statOk => statOk
  | .dir scanOk children => scanOk && allAccessibleList children
  | .other => true
  | .broken => false

def allAccessibleList : FSList → Bool
  | .nil => true
  | .cons e es => allAccessible e && allAccessibleList es
end

/-- The summation step of `calculate_total_size_async`'s join task,
src/q3.py:326-327: one `_get_path_size` result per top-level path, summed
(`_get_path_size` never raises, so no future carries an exception). -/
def calculate_total (paths : List FSEntry) : Nat :=
  (paths.map get_path_size).sum

/-- Replace every `{}` in the character list by `sub`. -/
def replaceBraces (sub : List Char) : List Char → List Char
  | [] => []
  | '\x7b' :: '\x7d' :: rest => sub ++ replaceBraces sub rest
  | c :: rest => c :: replaceBraces sub rest

/-- `str.format` on a template whose placeholders are plain `{}`. -/
def strFormat (template s : String) : String :=
  String.mk (replaceBraces s.data template.data)

/-- The final aggregate string handed off by
`aggregate_and_emit_result_on_main_thread`, src/q3.py:326-328. -/
def delivered_text (paths : List FSEntry) (template : String) : String :=
  strFormat template (format_size (some (calculate_total paths)))

/-- Characters after the last `/` (accumulator holds the current segment
reversed). -/
def basenameAux (cur : List Char) : List Char → List Char
  | [] => cur.reverse
  | c :: rest => if c = '/' then basenameAux [] rest else basenameAux (c :: cur) rest

/-- `os.path.basename` for forward-slash paths: everything after the last
`/` (empty for a trailing slash). -/
def basename (p : String) : String :=
  String.mk (basenameAux [] p.data)

/-- Truncation of a long URL, src/q3.py:288. -/
def truncate50 (s : String) : String :=
  if 50 < s.length then s.take 47 ++ "..." else s

/-- One element of `QMimeData.urls()`: whether it is a local file URL, the
local path it resolves to together with the filesystem checks the
classifier performs on that path, and its string rendering. -/
structure MimeUrl where
  isLocalFile : Bool
  localPath : String
  pathExists : Bool
  isFile : Bool
  isDir : Bool
  urlString : String
  deriving Repr, DecidableEq, Inhabited

/-- The clipboard content set pulled on a change signal (`QMimeData`),
carrying exactly the observations `process_clipboard_data` makes:
`formats()`, `hasUrls()`/`urls()`, `hasImage()` with the pixmap's
dimensions (`none` models a null pixmap) and its PNG-encoded byte size,
`hasText()`/`text()` with the byte size the source computes from the text
(GBK, falling back to lossy UTF-8), and `data(t).size()` per format. -/
structure MimeData where
  formats : List String
  hasUrls : Bool
  urls : List MimeUrl
  hasImage : Bool
  pixmap : Option (Nat × Nat)
  pngByteSize : Nat
  hasText : Bool
  text : String
  textByteSize : Nat
  dataBytes : List (String × Nat)
  deriving Repr, DecidableEq

/-- The descriptor dict returned by `process_clipboard_data`: `type` is the
source's `"file" | "image" | "text" | "other" | "clear"`; absent dict keys
are `none` / `[]`. -/
structure ClipData where
  type : String
  top_text : String
  bottom_text : Option String := none
  bottom_template : Option String := none
  paths : List String := []
  deriving Repr, DecidableEq

/-- The `local_paths` list comprehension of src/q3.py:282. -/
def localPaths (m : MimeData) : List MimeUrl :=
  m.urls.filter (fun u => u.isLocalFile && u.pathExists)

/-- The noise-format filter of src/q3.py:315. -/
def noisyFormat (f : String) : Bool :=
  f.startsWith "application/x-qt-" ||
  f == "text/plain" || f == "text/plain;charset=utf-8" || f == "text/uri-list" ||
  f == "UTF8_STRING" || f == "COMPOUND_TEXT" || f == "TEXT" || f == "STRING" ||
  f == "image/png"

/-- The `"... (等 N 个)"` overflow line of src/q3.py:297. -/
def moreSuffix (k : Nat) : String := "... (等 " ++ toString k ++ " 个)"

/-- Label for more than one resolved path, src/q3.py:295-298: the first 7
base names, one per line, plus the overflow line when more than 7. -/
def fileTopText (lp : List MimeUrl) : String :=
  String.intercalate "\n"
    ((lp.take 7).map (fun u => basename u.localPath) ++
     (if 7 < lp.length then [moreSuffix (lp.length - 7)] else []))

/-- Size template for more than one resolved path, src/q3.py:299-301. -/
def fileBottomTemplate (lp : List MimeUrl) : String :=
  let count := lp.length
  let num_files := (lp.filter (fun u => u.isFile)).length
  let num_folders := (lp.filter (fun u => u.isDir)).length
  if 0 < num_files ∧ 0 < num_folders then toString count ++ " 个项目: \x7b\x7d"
  else if 0 < num_folders then toString count ++ " 个文件夹: \x7b\x7d"
  else toString count ++ " 个文件: \x7b\x7d"

/-- The `hasUrls` branch of `process_clipboard_data`, src/q3.py:279-302. -/
def classifyUrls (m : MimeData) : Option ClipData :=
  if m.urls = [] then none
  else
    let lp := localPaths m
    if lp = [] then
      let remote := m.urls.filter (fun u => !u.isLocalFile)
      match remote with
      | [] => none
      | r :: _ =>
        some { type := "other",
               top_text := "复制了 " ++ toString remote.length ++ " 个 URL",
               bottom_text := some (truncate50 r.urlString) }
    else
      if lp.length = 1 then
        let num_folders := (lp.filter (fun u => u.isDir)).length
        some { type := "file",
               top_text := basename (lp.headD default).localPath,
               bottom_template :=
                 some (if num_folders = 1 then "文件夹: \x7b\x7d" else "文件: \x7b\x7d"),
               paths := lp.map (fun u => u.localPath) }
      else
        some { type := "file",
               top_text := fileTopText lp,
               bottom_template := some (fileBottomTemplate lp),
               paths := lp.map (fun u => u.localPath) }

/-- The `hasImage` branch of `process_clipboard_data`, src/q3.py:303-307. -/
def classifyImage (m : MimeData) : Option ClipData :=
  match m.pixmap with
  | none => none
  | some (w, h) =>
    some { type := "image", top_text := toString w ++ "×" ++ toString h,
           bottom_text := some ("截图: " ++ format_size (some m.pngByteSize)) }

/-- The trailing-format branches of `process_clipboard_data`,
src/q3.py:314-321: filter noise formats, take the first remaining (else
the first format), report it as unknown content with its raw byte length;
an empty format list yields the `"clear"` descriptor. -/
def classifyFormats (m : MimeData) : Option ClipData :=
  if m.formats = [] then
    some { type := "clear", top_text := "剪贴板已清空", bottom_text := some " " }
  else
    let filtered := m.formats.filter (fun f => !noisyFormat f)
    match (match filtered with | f :: _ => some f | [] => m.formats.head?) with
    | none => none
    | some t =>
      some { type := "other", top_text := "未知内容\n类型: " ++ t,
             bottom_text := some (format_size (some ((m.dataBytes.lookup t).getD 0))) }

/-- `ClipboardMonitor.process_clipboard_data`, src/q3.py:273-322. -/
def process_clipboard_data (m : MimeData) : Option ClipData :=
  if m.hasUrls then classifyUrls m
  else if m.hasImage then classifyImage m
  else if m.hasText ∧ m.text ≠ "" then
    some { type := "text", top_text := m.text,
           bottom_text := some (format_size (some m.textByteSize)) }
  else classifyFormats m

/-!
Per-notification state (`TransparentPopup`).  Timers and animations are
embedded as activity flags plus, for the countdown, the remembered
remaining duration and start timestamp the source itself keeps
(`lifecycle_remaining`, `lifecycle_start_time`).  `is_sliding_out` is the
source's lazily-created attribute, `false` standing for "attribute not
set yet".  Presentation-only state (colors, geometry, scrollbar) is
outside the core and not modelled.
-/
structure PopupState where
  is_sticky : Bool
  is_sliding_out : Bool
  lifecycle_remaining : Nat
  lifecycle_start_time : Option Nat
  lifecycleTimerActive : Bool
  borderTimerActive : Bool
  border_thickness : Nat
  border_dash_offset : Int
  readOnly : Bool
  editInteraction : Bool
  maxHeight : Nat
  top_text : String
  original_top_text : String
  bottom_text : String
  slideAnimRunning : Bool
  animGroupRunning : Bool
  closed : Bool
  color_mode : Nat
  deriving Repr, DecidableEq

/-- `TransparentPopup.__init__` followed by the `show`/`slide_in`/
`start_lifecycle` calls it performs, src/q3.py:434-459 and 631-636:
a fresh popup is unpinned, not exiting, read-only, with the 19 s countdown
started at creation time and the slide-in animation running. -/
def initPopup (data : ClipData) (color_mode : Nat) (now : Nat) : PopupState :=
  { is_sticky := false, is_sliding_out := false,
    lifecycle_remaining := 19 * 1000, lifecycle_start_time := some now,
    lifecycleTimerActive := true, borderTimerActive := false,
    border_thickness := 1, border_dash_offset := 0,
    readOnly := true, editInteraction := false, maxHeight := 162,
    top_text := data.top_text, original_top_text := data.top_text,
    bottom_text := data.bottom_text.getD "",
    slideAnimRunning := true, animGroupRunning := false, closed := false,
    color_mode := color_mode }

/-- `TransparentPopup.update_bottom_text`, src/q3.py:722-723. -/
def update_bottom_text (p : PopupState) (text : String) : PopupState :=
  { p with bottom_text := text }

/-- `TransparentPopup.slide_out`, src/q3.py:699-712: stop the lifecycle and
border timers, then return if already sliding out; otherwise mark sliding
out, stop a still-running slide-in animation and start the exit animation
group (whose completion later triggers `close_popup`). -/
def slide_out (p : PopupState) : PopupState :=
  let p1 := { p with lifecycleTimerActive := false, borderTimerActive := false }
  if p1.is_sliding_out then p1
  else { p1 with is_sliding_out := true, slideAnimRunning := false,
                 animGroupRunning := true }

/-- `TransparentPopup.start_lifecycle`, src/q3.py:631-636: replace the
countdown timer by a fresh single-shot one and, when not pinned, record
the start time and run it for `lifecycle_remaining` ms. -/
def start_lifecycle (p : PopupState) (now : Nat) : PopupState :=
  if !p.is_sticky then
    { p with lifecycle_start_time := some now, lifecycleTimerActive := true }
  else
    { p with lifecycleTimerActive := false }

/-- `TransparentPopup.activate_sticky_mode`, src/q3.py:644-667: if the
countdown is running, stop it and remember `max(0, remaining - elapsed)`
(truncated `Nat` subtraction); thicken and animate the border and enable
editing. -/
def activate_sticky_mode (p : PopupState) (now : Nat) : PopupState :=
  let p1 :=
    if p.lifecycleTimerActive then
      { p with lifecycleTimerActive := false,
               lifecycle_remaining :=
                 p.lifecycle_remaining - (now - (p.lifecycle_start_time.getD now)) }
    else p
  { p1 with border_thickness := 2, borderTimerActive := true,
            readOnly := false, editInteraction := true, maxHeight := 10000 }

/-- `TransparentPopup.deactivate_sticky_mode`, src/q3.py:671-693: restart
the countdown only when the remembered remaining time is positive; stop
the border animation, disable editing and restore the captured original
top text. -/
def deactivate_sticky_mode (p : PopupState) (now : Nat) : PopupState :=
  let p1 := if 0 < p.lifecycle_remaining then start_lifecycle p now else p
  { p1 with borderTimerActive := false, border_dash_offset := 0,
            border_thickness := 1, readOnly := true, editInteraction := false,
            maxHeight := 162, top_text := p1.original_top_text }

/-- `TransparentPopup.toggle_sticky_mode`, src/q3.py:638-641. -/
def toggle_sticky_mode (p : PopupState) (now : Nat) : PopupState :=
  let p1 := { p with is_sticky := !p.is_sticky }
  if p1.is_sticky then activate_sticky_mode p1 now else deactivate_sticky_mode p1 now

/-- What the monitor's clipboard-change handler does externally: whether
`play_random_sound` was called, and the id of a created popup if any. -/
structure Output where
  soundPlayed : Bool
  createdPopup : Option Nat
  deriving Repr, DecidableEq

def noOutput : Output := { soundPlayed := false, createdPopup := none }

/-!
`ClipboardMonitor` state.  Popups are identified by creation index
(`nextId` counts up); `popups` is an association list holding the state of
every popup ever created (a Python object outlives its removal from
`active_popups`, and must not be mutated once disposed), `active_popups`
is the source's list of the same name, in creation order.  The cooldown
is the `is_on_cooldown` flag plus the due times of all pending
`QTimer.singleShot` clears scheduled by `set_cooldown` — each such timer
unconditionally resets the flag when it fires.
-/
structure MonitorState where
  nextId : Nat
  active_popups : List Nat
  popups : List (Nat × PopupState)
  is_on_cooldown : Bool
  pendingClears : List Nat
  current_color_mode : Nat
  deriving Repr, DecidableEq

/-- Fire every pending cooldown-clear timer that is due at `now`: each one
runs `setattr(self, 'is_on_cooldown', False)` (src/q3.py:346), so the
flag is false afterwards if any fired. -/
def fireDueClears (s : MonitorState) (now : Nat) : MonitorState :=
  if s.pendingClears.any (fun c => decide (c ≤ now)) then
    { s with is_on_cooldown := false,
             pendingClears := s.pendingClears.filter (fun c => decide (now < c)) }
  else s

/-- `ClipboardMonitor.set_cooldown`, src/q3.py:343-346: raise the flag and
schedule one more independent single-shot clear 100 ms from now. -/
def set_cooldown (s : MonitorState) (now : Nat) : MonitorState :=
  { s with is_on_cooldown := true,
           pendingClears := s.pendingClears ++ [now + 100] }

/-- Find the state of the popup object with id `pid`. -/
def lookupEntry (pid : Nat) : List (Nat × PopupState) → Option PopupState
  | [] => none
  | (k, v) :: es => if k = pid then some v else lookupEntry pid es

def lookupPopup (s : MonitorState) (pid : Nat) : Option PopupState :=
  lookupEntry pid s.popups

/-- The `hasattr(p, 'is_sliding_out') and p.is_sliding_out` test of
src/q3.py:382 for the popup with id `pid`. -/
def isSlidingOut (s : MonitorState) (pid : Nat) : Bool :=
  match lookupPopup s pid with
  | some p => p.is_sliding_out
  | none => false

def isStickyP (s : MonitorState) (pid : Nat) : Bool :=
  match lookupPopup s pid with
  | some p => p.is_sticky
  | none => false

/-- `any(p.is_sticky for p in self.active_popups)`, src/q3.py:363. -/
def anySticky (s : MonitorState) : Bool :=
  s.active_popups.any (fun pid => isStickyP s pid)

/-- The victim search of `show_popup`, src/q3.py:380-384: walk
`active_popups` in reverse and take the first popup not sliding out. -/
def findStationary (s : MonitorState) : Option Nat :=
  s.active_popups.reverse.find? (fun pid => !isSlidingOut s pid)

/-- Apply `f` to the association-list entry with key `pid` (mutating the
popup object with that id in place). -/
def updateEntries (ps : List (Nat × PopupState)) (pid : Nat)
    (f : PopupState → PopupState) : List (Nat × PopupState) :=
  match ps with
  | [] => []
  | (k, v) :: es => (k, if k = pid then f v else v) :: updateEntries es pid f

def updatePopup (s : MonitorState) (pid : Nat) (f : PopupState → PopupState) :
    MonitorState :=
  { s with popups := updateEntries s.popups pid f }

/-- `ClipboardMonitor.show_popup`, src/q3.py:378-396: slide out the found
stationary popup when it is not pinned, then construct the new popup with
the current theme, flip the theme, append the new popup to the live list
and set the cooldown.  Returns the new popup's id. -/
def show_popup (s : MonitorState) (data : ClipData) (now : Nat) :
    MonitorState × Nat :=
  let s1 :=
    match findStationary s with
    | some vid => if !isStickyP s vid then updatePopup s vid slide_out else s
    | none => s
  let newId := s1.nextId
  let s2 :=
    { s1 with nextId := newId + 1,
              current_color_mode := 1 - s1.current_color_mode,
              active_popups := s1.active_popups ++ [newId],
              popups := s1.popups ++ [(newId, initPopup data s1.current_color_mode now)] }
  (set_cooldown s2 now, newId)

/-- `ClipboardMonitor.on_clipboard_changed`, src/q3.py:348-376: return at
once while on cooldown; classify the fresh content; play the feedback
sound for every non-`"clear"` descriptor; while any live popup is pinned,
set the cooldown and return without creating anything; otherwise create
the popup and, for a `"file"` descriptor, show the provisional `●` busy
marker (the asynchronous size aggregation it also launches is modelled
separately by `delivered_text`/`on_calculation_finished`). -/
def on_clipboard_changed (s : MonitorState) (now : Nat) (mime : MimeData) :
    MonitorState × Output :=
  let s0 := fireDueClears s now
  if s0.is_on_cooldown then (s0, noOutput)
  else
    match process_clipboard_data mime with
    | none => (s0, noOutput)
    | some data =>
      let sound := data.type != "clear"
      if anySticky s0 then (set_cooldown s0 now, { soundPlayed := sound, createdPopup := none })
      else
        let res := show_popup s0 data now
        let s2 :=
          if data.type == "file" then
            updatePopup res.1 res.2
              (fun p => update_bottom_text p (strFormat (data.bottom_template.getD "") "●"))
          else res.1
        (s2, { soundPlayed := sound, createdPopup := some res.2 })

/-- `ClipboardMonitor.on_calculation_finished`, src/q3.py:331-332: the
aggregate string is applied only when its target popup is still in
`active_popups`. -/
def on_calculation_finished (s : MonitorState) (final_text : String) (pid : Nat) :
    MonitorState :=
  if pid ∈ s.active_popups then updatePopup s pid (fun p => update_bottom_text p final_text)
  else s

/-- The per-popup effect of `close_popup`, src/q3.py:403-413: stop both
animations and both timers, disconnect the scrollbar and close the
widget. -/
def closeP (p : PopupState) : PopupState :=
  { p with slideAnimRunning := false, animGroupRunning := false,
           lifecycleTimerActive := false, borderTimerActive := false,
           closed := true }

/-- `ClipboardMonitor.close_popup`, src/q3.py:398-413: remove the popup
from the live list when present, then stop its animations and timers and
close it (these happen whether or not it was still live). -/
def close_popup (s : MonitorState) (pid : Nat) : MonitorState :=
  let s1 :=
    { s with active_popups :=
        if pid ∈ s.active_popups then s.active_popups.erase pid else s.active_popups }
  updatePopup s1 pid closeP

/-!
Concrete inputs and states used by witnesses and counterexamples.
-/

/-- A URL resolving to an existing local regular file. -/
def egFileUrl (p : String) : MimeUrl :=
  { isLocalFile := true, localPath := p, pathExists := true, isFile := true,
    isDir := false, urlString := "" }

/-- A URL resolving to an existing local directory. -/
def egDirUrl (p : String) : MimeUrl :=
  { isLocalFile := true, localPath := p, pathExists := true, isFile := false,
    isDir := true, urlString := "" }

/-- Clipboard content holding two files and one folder (spec scenario). -/
def egMimeMixed : MimeData :=
  { formats := ["text/uri-list"], hasUrls := true,
    urls := [egFileUrl "/a/x.txt", egFileUrl "/a/y.txt", egDirUrl "/a/z"],
    hasImage := false, pixmap := none, pngByteSize := 0,
    hasText := false, text := "", textByteSize := 0, dataBytes := [] }

/-- Clipboard content holding the plain text `"hello"` (5 GBK bytes). -/
def egMimeText : MimeData :=
  { formats := ["text/plain"], hasUrls := false, urls := [],
    hasImage := false, pixmap := none, pngByteSize := 0,
    hasText := true, text := "hello", textByteSize := 5, dataBytes := [] }

/-- The descriptor `process_clipboard_data` builds for `egMimeText`. -/
def egTextData : ClipData :=
  { type := "text", top_text := "hello", bottom_text := some "5 <i>b</i>" }

/-- A pinned popup whose remembered countdown is exhausted (reached by
pinning while the almost-expired countdown is still pending, so that
`max(0, remaining - elapsed)` is 0). -/
def egExhaustedSticky : PopupState :=
  { is_sticky := true, is_sliding_out := false, lifecycle_remaining := 0,
    lifecycle_start_time := some 0, lifecycleTimerActive := false,
    borderTimerActive := true, border_thickness := 2, border_dash_offset := 0,
    readOnly := false, editInteraction := true, maxHeight := 10000,
    top_text := "t", original_top_text := "t", bottom_text := "b",
    slideAnimRunning := false, animGroupRunning := false, closed := false,
    color_mode := 0 }

/-- The freshly-started monitor. -/
def egInitMonitor : MonitorState :=
  { nextId := 0, active_popups := [], popups := [], is_on_cooldown := false,
    pendingClears := [], current_color_mode := 0 }

/-- A monitor with one stationary (unpinned, non-exiting) live popup. -/
def egMonitor : MonitorState :=
  { nextId := 1, active_popups := [0], popups := [(0, initPopup egTextData 0 0)],
    is_on_cooldown := false, pendingClears := [], current_color_mode := 1 }

/-- A monitor whose single live popup is pinned. -/
def egStickyMonitor : MonitorState :=
  { nextId := 1, active_popups := [0], popups := [(0, egExhaustedSticky)],
    is_on_cooldown := false, pendingClears := [], current_color_mode := 1 }

/-- The monitor after two internal-copy cooldown requests at t=0 and t=70
(e.g. Ctrl+C in a pinned popup, src/q3.py:107-110, which calls
`set_cooldown` unconditionally): clears are pending at t=100 and t=170. -/
def egTwoCooldowns : MonitorState :=
  set_cooldown (set_cooldown egInitMonitor 0) 70

/-- A three-path list: one accessible file, one accessible directory with
an accessible file inside, and a path that is neither file nor dir. -/
def egPaths : List FSEntry :=
  [FSEntry.file 100 true,
   FSEntry.dir true (FSList.cons (FSEntry.file 5 true) FSList.nil),
   FSEntry.other]

/-!
Shared lemmas.
-/

mutual
theorem get_le_total : ∀ e : FSEntry, get_path_size e ≤ totalBytes e
  | .file sz ok => by cases ok <;> simp [get_path_size, totalBytes]
  | .dir ok ch => by
      cases ok
      · simp [get_path_size, totalBytes]
      · simpa [get_path_size, totalBytes] using get_list_le_total ch
  | .other => by simp [get_path_size, totalBytes]
  | .broken => by simp [get_path_size, totalBytes]

theorem get_list_le_total : ∀ l : FSList, get_list_size l ≤ totalBytesList l
  | .nil => by simp [get_list_size, totalBytesList]
  | .cons e es => by
      simpa [get_list_size, totalBytesList] using
        Nat.add_le_add (get_le_total e) (get_list_le_total es)
end

mutual
theorem get_eq_total_of_accessible :
    ∀ e : FSEntry, allAccessible e = true → get_path_size e = totalBytes e
  | .file sz ok, h => by
      simp [allAccessible] at h
      simp [get_path_size, totalBytes, h]
  | .dir ok ch, h => by
      simp [allAccessible] at h
      simp [get_path_size, totalBytes, h.1, get_list_eq_of_accessible ch h.2]
  | .other, _ => rfl
  | .broken, h => by simp [allAccessible] at h

theorem get_list_eq_of_accessible :
    ∀ l : FSList, allAccessibleList l = true → get_list_size l = totalBytesList l
  | .nil, _ => rfl
  | .cons e es, h => by
      simp [allAccessibleList] at h
      simp [get_list_size, totalBytesList, get_eq_total_of_accessible e h.1,
            get_list_eq_of_accessible es h.2]
end

theorem calculate_total_le (paths : List FSEntry) :
    calculate_total paths ≤ (paths.map totalBytes).sum := by
  induction paths with
  | nil => simp [calculate_total]
  | cons e es ih =>
    simpa [calculate_total, List.map_cons, List.sum_cons] using
      Nat.add_le_add (get_le_total e) ih

theorem calculate_total_eq_of_accessible (paths : List FSEntry)
    (h : ∀ e ∈ paths, allAccessible e = true) :
    calculate_total paths = (paths.map totalBytes).sum := by
  induction paths with
  | nil => rfl
  | cons e es ih =>
    simp [calculate_total, List.map_cons, List.sum_cons] at ih ⊢
    rw [get_eq_total_of_accessible e (h e (by simp)), ih]
    intro x hx
    exact h x (by simp [hx])

/-!
Claim theorems.
-/

/-- C10: `format_size` is total over its optional input: the absent byte
count (`None`, src/q3.py:335) yields the string `"N/A"` instead of
failing. -/
theorem format_size_none_na : format_size none = "N/A" := rfl

/-- C5 counterexample: aggregating the single 2048-byte file delivers the
size string `"2 <i>K</i>"` (the unit is wrapped in italic markup,
src/q3.py:338), not the exact string `"2 K"` the claim asserts; the full
delivered bottom text for the `"文件: {}"` template is
`"文件: 2 <i>K</i>"`. -/
theorem format_size_report_cex :
    calculate_total [FSEntry.file 2048 true] = 2048 ∧
    format_size (some 2048) = "2 <i>K</i>" ∧
    format_size (some 2048) ≠ "2 K" ∧
    delivered_text [FSEntry.file 2048 true] "文件: \x7b\x7d" = "文件: 2 <i>K</i>" := by
  refine ⟨rfl, by decide, by decide, by decide⟩

/-- C5 (amended): the shared size-formatting rule, with the units as the
code actually renders them (`" <i>b</i>"`, `" <i>K</i>"`, `" <i>Mb</i>"`,
`" <i>Gb</i>"` instead of the claim's bare `b`/`K`/`Mb`/`Gb`): below 1024
bytes the rounded integer byte count, below 1024 KB the half-even-rounded
integer KB count, below 1024 MB one-decimal MB, else one-decimal GB; and
`divRoundHalfEven` really rounds to the nearest integer
(`2*b*r` is within `b` of `2*a`). -/
theorem format_size_rule (n : Nat) :
    (n < 1024 → format_size (some n) = toString n ++ " <i>b</i>") ∧
    (1024 ≤ n → n < 1024 * 1024 →
      format_size (some n) = toString (divRoundHalfEven n 1024) ++ " <i>K</i>") ∧
    (1024 * 1024 ≤ n → n < 1024 * 1024 * 1024 →
      format_size (some n) = fmt1dec n (1024 * 1024) ++ " <i>Mb</i>") ∧
    (1024 * 1024 * 1024 ≤ n →
      format_size (some n) = fmt1dec n (1024 * 1024 * 1024) ++ " <i>Gb</i>") ∧
    (∀ a b : Nat, 0 < b →
      2 * (b * divRoundHalfEven a b) ≤ 2 * a + b ∧
      2 * a ≤ 2 * (b * divRoundHalfEven a b) + b) := by
  refine ⟨?_, ?_, ?_, ?_, ?_⟩
  · intro h; simp [format_size, h]
  · intro h1 h2
    have ha : ¬ n < 1024 := by omega
    simp [format_size, ha, h2]
  · intro h1 h2
    have ha : ¬ n < 1024 := by omega
    have hk : ¬ n < 1024 * 1024 := by omega
    simp [format_size, ha, hk, h2]
  · intro h1
    have ha : ¬ n < 1024 := by omega
    have hk : ¬ n < 1024 * 1024 := by omega
    have hm : ¬ n < 1024 * 1024 * 1024 := by omega
    simp [format_size, ha, hk, hm]
  · intro a b hb
    have hmod := Nat.div_add_mod a b
    have hlt : a % b < b := Nat.mod_lt a hb
    have he : divRoundHalfEven a b =
        if 2 * (a % b) < b then a / b
        else if b < 2 * (a % b) then a / b + 1
        else if (a / b) % 2 = 0 then a / b else a / b + 1 := rfl
    have hd : b * (a / b + 1) = b * (a / b) + b := by ring
    rw [he]
    split
    · omega
    · split
      · omega
      · split <;> omega

/-- C5 witness: the formatting rule applied at the scenario's 2048 bytes. -/
theorem format_size_rule_witness :
    format_size (some 2048) = toString (divRoundHalfEven 2048 1024) ++ " <i>K</i>" :=
  (format_size_rule 2048).2.1 (by decide) (by decide)

/-- C6: for every path list the aggregation is a total function (this
definition is accepted by Lean's termination checker) returning a
nonnegative total; it never exceeds the bytes actually present, it equals
them when everything is accessible, and an unreadable file, an
unscannable directory and a path whose type check raises each contribute
exactly zero instead of raising. -/
theorem aggregate_counts_only_accessible :
    (∀ paths : List FSEntry, 0 ≤ (calculate_total paths : Int)) ∧
    (∀ paths : List FSEntry, calculate_total paths ≤ (paths.map totalBytes).sum) ∧
    (∀ paths : List FSEntry, (∀ e ∈ paths, allAccessible e = true) →
      calculate_total paths = (paths.map totalBytes).sum) ∧
    (∀ (sz : Nat) (ch : FSList),
      get_path_size (FSEntry.file sz false) = 0 ∧
      get_path_size (FSEntry.dir false ch) = 0 ∧
      get_path_size FSEntry.broken = 0) := by
  refine ⟨fun paths => Int.natCast_nonneg _, calculate_total_le,
          calculate_total_eq_of_accessible, fun sz ch => ⟨?_, ?_, rfl⟩⟩
  · simp [get_path_size]
  · simp [get_path_size]

/-- C6 witness: the aggregation evaluated on a concrete fully-accessible
path list. -/
theorem aggregate_counts_only_accessible_witness :
    calculate_total egPaths = (egPaths.map totalBytes).sum :=
  aggregate_counts_only_accessible.2.2.1 egPaths (by decide)

/-- C8: an aggregate-size delivery whose target popup is no longer in the
live set leaves the whole monitor state — the live set and every popup
ever created, disposed ones included — unchanged (src/q3.py:331-332). -/
theorem stale_delivery_dropped (s : MonitorState) (text : String) (pid : Nat)
    (h : pid ∉ s.active_popups) :
    on_calculation_finished s text pid = s := by
  simp [on_calculation_finished, h]

/-- C8 witness: a delivery for disposed popup 5 is dropped on a concrete
monitor state. -/
theorem stale_delivery_dropped_witness :
    on_calculation_finished egMonitor "x" 5 = egMonitor :=
  stale_delivery_dropped egMonitor "x" 5 (by decide)

theorem closeP_idem (p : PopupState) : closeP (closeP p) = closeP p := rfl

theorem updateEntries_idem (ps : List (Nat × PopupState)) (pid : Nat)
    (f : PopupState → PopupState) (hf : ∀ x, f (f x) = f x) :
    updateEntries (updateEntries ps pid f) pid f = updateEntries ps pid f := by
  induction ps with
  | nil => rfl
  | cons e es ih =>
    obtain ⟨k, v⟩ := e
    by_cases h : k = pid <;> simp [updateEntries, h, hf, ih]

/-- C9: a repeated exit request and a repeated disposal are idempotent
no-ops.  `slide_out` run twice equals `slide_out` run once (the second
call only re-stops the already-stopped timers and returns at the
`is_sliding_out` guard, src/q3.py:699-703), and `close_popup` run twice
equals `close_popup` run once — the live set (the popup is already
removed) and the popup's state (timers/animations already stopped, widget
already closed) are unchanged (src/q3.py:398-413). -/
theorem double_exit_double_dispose_noop :
    (∀ p : PopupState, slide_out (slide_out p) = slide_out p) ∧
    (∀ (s : MonitorState) (pid : Nat), s.active_popups.Nodup →
      close_popup (close_popup s pid) pid = close_popup s pid) := by
  constructor
  · intro p
    cases h : p.is_sliding_out <;> simp [slide_out, h]
  · intro s pid h
    by_cases hm : pid ∈ s.active_popups
    · have hne : pid ∉ s.active_popups.erase pid := h.not_mem_erase
      simp [close_popup, updatePopup, hm, hne,
            updateEntries_idem _ _ _ closeP_idem]
    · simp [close_popup, updatePopup, hm,
            updateEntries_idem _ _ _ closeP_idem]

/-- C9 witness: double exit and double disposal on a concrete popup and a
concrete monitor state. -/
theorem double_exit_double_dispose_noop_witness :
    slide_out (slide_out egExhaustedSticky) = slide_out egExhaustedSticky ∧
    close_popup (close_popup egMonitor 0) 0 = close_popup egMonitor 0 :=
  ⟨double_exit_double_dispose_noop.1 egExhaustedSticky,
   double_exit_double_dispose_noop.2 egMonitor 0 (by decide)⟩

/-- States like `egExhaustedSticky` are reachable: pinning a stationary
popup whose countdown timer is still pending while the elapsed wall time
already covers the remaining duration (the timer has not fired yet, e.g.
under event-loop delay) remembers `max(0, remaining - elapsed) = 0`. -/
theorem pin_exhausts_countdown (p : PopupState) (now t : Nat)
    (hs : p.is_sticky = false) (ht : p.lifecycleTimerActive = true)
    (hst : p.lifecycle_start_time = some t)
    (helapsed : p.lifecycle_remaining ≤ now - t) :
    (toggle_sticky_mode p now).is_sticky = true ∧
    (toggle_sticky_mode p now).lifecycle_remaining = 0 ∧
    (toggle_sticky_mode p now).lifecycleTimerActive = false := by
  have hz : p.lifecycle_remaining - (now - t) = 0 := Nat.sub_eq_zero_of_le helapsed
  simp [toggle_sticky_mode, activate_sticky_mode, hs, ht, hst, hz]

/-- C2 counterexample: a pinned popup whose remembered countdown is 0 is
unpinned (src/q3.py:638-641, 671-673) and does not begin exit — it is not
sliding out afterwards and no countdown timer is running (so nothing will
ever dismiss it automatically), contradicting the claimed immediate
dismissal. -/
theorem unpin_zero_remaining_cex :
    egExhaustedSticky.is_sticky = true ∧
    egExhaustedSticky.lifecycle_remaining = 0 ∧
    (toggle_sticky_mode egExhaustedSticky 5).is_sticky = false ∧
    (toggle_sticky_mode egExhaustedSticky 5).is_sliding_out = false ∧
    (toggle_sticky_mode egExhaustedSticky 5).lifecycleTimerActive = false := by
  decide

/-- C2 (amended): unpinning with zero remembered remaining countdown does
NOT begin exit: the popup's exit status is unchanged and the countdown
timer stays stopped, leaving the popup stationary indefinitely; only
unpinning with positive remaining time resumes the countdown (restarting
the timer from `now` with the remembered remainder).  The hypothesis
`lifecycleTimerActive = false` is the state every pinned popup is in,
since `activate_sticky_mode` stops the timer (src/q3.py:645-646). -/
theorem unpin_zero_remaining_keeps_popup (p : PopupState) (now : Nat)
    (hs : p.is_sticky = true) (ht : p.lifecycleTimerActive = false) :
    (p.lifecycle_remaining = 0 →
      (toggle_sticky_mode p now).is_sticky = false ∧
      (toggle_sticky_mode p now).is_sliding_out = p.is_sliding_out ∧
      (toggle_sticky_mode p now).lifecycleTimerActive = false ∧
      (toggle_sticky_mode p now).lifecycle_remaining = 0) ∧
    (0 < p.lifecycle_remaining →
      (toggle_sticky_mode p now).lifecycleTimerActive = true ∧
      (toggle_sticky_mode p now).lifecycle_start_time = some now ∧
      (toggle_sticky_mode p now).lifecycle_remaining = p.lifecycle_remaining) := by
  constructor
  · intro h0
    simp [toggle_sticky_mode, deactivate_sticky_mode, start_lifecycle, hs, ht, h0]
  · intro hpos
    simp [toggle_sticky_mode, deactivate_sticky_mode, start_lifecycle, hs, hpos]

/-- C2 witness: the amended behaviour at the concrete exhausted pinned
popup. -/
theorem unpin_zero_remaining_keeps_popup_witness :
    (toggle_sticky_mode egExhaustedSticky 5).is_sliding_out =
      egExhaustedSticky.is_sliding_out ∧
    (toggle_sticky_mode egExhaustedSticky 5).lifecycleTimerActive = false := by
  have h := (unpin_zero_remaining_keeps_popup egExhaustedSticky 5
    (by decide) (by decide)).1 (by decide)
  exact ⟨h.2.1, h.2.2.1⟩

theorem fireDueClears_active (s : MonitorState) (now : Nat) :
    (fireDueClears s now).active_popups = s.active_popups := by
  unfold fireDueClears; split <;> rfl

theorem fireDueClears_popups (s : MonitorState) (now : Nat) :
    (fireDueClears s now).popups = s.popups := by
  unfold fireDueClears; split <;> rfl

/-- C4: on an accepted classified change (not on cooldown, a descriptor
was produced) while at least one live popup is pinned, the handler
creates no popup and returns after setting the cooldown, but reports the
feedback sound exactly when the descriptor's type is not `"clear"`
(src/q3.py:363-371); the live set and every popup state are untouched. -/
theorem sticky_suppresses_creation_still_sounds (s : MonitorState) (now : Nat)
    (m : MimeData) (d : ClipData)
    (hc : (fireDueClears s now).is_on_cooldown = false)
    (hd : process_clipboard_data m = some d)
    (hs : anySticky (fireDueClears s now) = true) :
    on_clipboard_changed s now m =
      (set_cooldown (fireDueClears s now) now,
       { soundPlayed := d.type != "clear", createdPopup := none }) ∧
    (on_clipboard_changed s now m).1.active_popups = s.active_popups ∧
    (on_clipboard_changed s now m).1.popups = s.popups := by
  have h1 : on_clipboard_changed s now m =
      (set_cooldown (fireDueClears s now) now,
       { soundPlayed := d.type != "clear", createdPopup := none }) := by
    unfold on_clipboard_changed
    rw [hd]
    simp [hc, hs]
  refine ⟨h1, ?_, ?_⟩
  · rw [h1]
    show (set_cooldown (fireDueClears s now) now).active_popups = s.active_popups
    simpa [set_cooldown] using fireDueClears_active s now
  · rw [h1]
    show (set_cooldown (fireDueClears s now) now).popups = s.popups
    simpa [set_cooldown] using fireDueClears_popups s now

/-- C4 witness: a text change arriving while the only live popup is pinned
plays the sound and creates nothing. -/
theorem sticky_suppresses_creation_witness :
    on_clipboard_changed egStickyMonitor 5 egMimeText =
      (set_cooldown (fireDueClears egStickyMonitor 5) 5,
       { soundPlayed := true, createdPopup := none }) :=
  (sticky_suppresses_creation_still_sounds egStickyMonitor 5 egMimeText egTextData
    (by decide) (by decide) (by decide)).1

theorem show_popup_is_on_cooldown (s : MonitorState) (d : ClipData) (now : Nat) :
    (show_popup s d now).1.is_on_cooldown = true := rfl

theorem show_popup_pendingClears (s : MonitorState) (d : ClipData) (now : Nat) :
    (show_popup s d now).1.pendingClears = s.pendingClears ++ [now + 100] := by
  unfold show_popup
  split <;> first | rfl | (split <;> rfl)

/-- While the cooldown flag is up, the handler returns at once
(src/q3.py:354-355). -/
theorem on_clipboard_changed_on_cooldown (s : MonitorState) (now : Nat)
    (m : MimeData) (h : (fireDueClears s now).is_on_cooldown = true) :
    on_clipboard_changed s now m = (fireDueClears s now, noOutput) := by
  unfold on_clipboard_changed
  simp [h]

/-- After an accepted (not-on-cooldown, classified) change event, the flag
is up and exactly one more clear, due 100 ms later, is pending: every
accepting branch of `on_clipboard_changed` ends in `set_cooldown`. -/
theorem accept_sets_cooldown (s : MonitorState) (now : Nat) (m : MimeData)
    (d : ClipData)
    (hc : (fireDueClears s now).is_on_cooldown = false)
    (hd : process_clipboard_data m = some d) :
    (on_clipboard_changed s now m).1.is_on_cooldown = true ∧
    (on_clipboard_changed s now m).1.pendingClears =
      (fireDueClears s now).pendingClears ++ [now + 100] := by
  unfold on_clipboard_changed
  rw [hd]
  simp only [hc, Bool.false_eq_true, if_false]
  by_cases hs : anySticky (fireDueClears s now)
  · simp [hs, set_cooldown]
  · by_cases hf : d.type == "file"
    · simp [hs, hf, updatePopup, show_popup_is_on_cooldown,
            show_popup_pendingClears]
    · simp [hs, hf, show_popup_is_on_cooldown, show_popup_pendingClears]

/-- C3 (amended): a second change signal arriving within the 100 ms window
opened by accepting a first one is ignored outright — PROVIDED no
cooldown-clear timer scheduled by an earlier `set_cooldown` request is
still pending and due inside the window.  Each `set_cooldown` schedules an
independent single-shot timer that unconditionally resets the flag
(src/q3.py:343-346), so such a stale timer can end the window early; when
none is due before `t1`, the handler returns at src/q3.py:354-355 with no
sound, no popup and no state change. -/
theorem cooldown_blocks_second_signal (s : MonitorState) (t0 t1 : Nat)
    (m1 m2 : MimeData)
    (hc : (fireDueClears s t0).is_on_cooldown = false)
    (hd : (process_clipboard_data m1).isSome = true)
    (h01 : t0 ≤ t1) (hw : t1 < t0 + 100)
    (hp : ∀ c ∈ (fireDueClears s t0).pendingClears, t1 < c) :
    on_clipboard_changed (on_clipboard_changed s t0 m1).1 t1 m2 =
      ((on_clipboard_changed s t0 m1).1, noOutput) := by
  obtain ⟨d, hd⟩ := Option.isSome_iff_exists.mp hd
  have hstate := accept_sets_cooldown s t0 m1 d hc hd
  have hnone : ((on_clipboard_changed s t0 m1).1.pendingClears.any
      (fun c => decide (c ≤ t1))) = false := by
    rw [hstate.2]
    rw [List.any_eq_false]
    intro c hcmem
    rcases List.mem_append.mp hcmem with hmem | hmem
    · have := hp c hmem
      simp; omega
    · simp at hmem
      subst hmem
      simp; omega
  have hfd : fireDueClears (on_clipboard_changed s t0 m1).1 t1 =
      (on_clipboard_changed s t0 m1).1 := by
    unfold fireDueClears
    rw [hnone]
    simp
  have hcool : (fireDueClears (on_clipboard_changed s t0 m1).1 t1).is_on_cooldown =
      true := by
    rw [hfd]; exact hstate.1
  rw [on_clipboard_changed_on_cooldown _ _ m2 hcool, hfd]

/-- C3 witness: with no stale clears pending (fresh monitor), a second
text-copy signal 50 ms after the first accepted one is ignored. -/
theorem cooldown_blocks_second_signal_witness :
    on_clipboard_changed (on_clipboard_changed egInitMonitor 0 egMimeText).1
        50 egMimeText =
      ((on_clipboard_changed egInitMonitor 0 egMimeText).1, noOutput) :=
  cooldown_blocks_second_signal egInitMonitor 0 50 egMimeText egMimeText
    (by decide) (by decide) (by decide) (by decide) (by decide)

/-- C3 counterexample: the claim fails as stated.  Starting from a fresh
monitor, two internal-copy cooldown requests are made at t=0 and t=70
(`egTwoCooldowns`; reachable via Ctrl+C in a pinned popup,
src/q3.py:107-110), leaving independent clear timers due at 100 and 170.
A first external change at t=120 is accepted (the t=100 timer has already
reset the flag): popup 0 plus sound, cooldown window open until t=220.
The stale t=170 timer then resets the flag, and a second change at t=180
— 60 ms after the first, well inside the claimed ~100 ms window — is NOT
ignored: it produces a second notification/sound pair. -/
theorem cooldown_stale_clear_cex :
    (fireDueClears egTwoCooldowns 120).is_on_cooldown = false ∧
    (on_clipboard_changed egTwoCooldowns 120 egMimeText).2 =
      { soundPlayed := true, createdPopup := some 0 } ∧
    (on_clipboard_changed egTwoCooldowns 120 egMimeText).1.pendingClears =
      [170, 220] ∧
    (180 : Nat) < 120 + 100 ∧
    (on_clipboard_changed
        (on_clipboard_changed egTwoCooldowns 120 egMimeText).1
        180 egMimeText).2 =
      { soundPlayed := true, createdPopup := some 1 } := by
  refine ⟨by decide, by decide, by decide, by decide, by decide⟩

/-- C7: for a content set resolving to more than one existing local path
(each a regular file or a directory), the descriptor is the `"file"` one
whose label lists the first (at most 7) base names, one per line, plus
the `"... (等 N 个)"` overflow line exactly when there are more than 7,
and whose size template is pluralized by composition: mixed sets get
`"N 个项目: {}"`, purely-folder sets `"N 个文件夹: {}"`, and sets with no
folders `"N 个文件: {}"` (src/q3.py:291-302). -/
theorem classify_multi_paths (m : MimeData)
    (hu : m.hasUrls = true)
    (h2 : 2 ≤ (localPaths m).length)
    (hfd : ∀ u ∈ localPaths m, u.isFile = true ∨ u.isDir = true) :
    process_clipboard_data m = some
      { type := "file",
        top_text := String.intercalate "\n"
          (((localPaths m).take 7).map (fun u => basename u.localPath) ++
           (if 7 < (localPaths m).length then
              [moreSuffix ((localPaths m).length - 7)] else [])),
        bottom_template := some (fileBottomTemplate (localPaths m)),
        paths := (localPaths m).map (fun u => u.localPath) } ∧
    ((∃ u ∈ localPaths m, u.isFile = true) → (∃ u ∈ localPaths m, u.isDir = true) →
      fileBottomTemplate (localPaths m) =
        toString (localPaths m).length ++ " 个项目: \x7b\x7d") ∧
    ((∀ u ∈ localPaths m, u.isFile = false) →
      fileBottomTemplate (localPaths m) =
        toString (localPaths m).length ++ " 个文件夹: \x7b\x7d") ∧
    ((∀ u ∈ localPaths m, u.isDir = false) →
      fileBottomTemplate (localPaths m) =
        toString (localPaths m).length ++ " 个文件: \x7b\x7d") := by
  have hlp : localPaths m ≠ [] := by
    intro h
    rw [h] at h2
    simp at h2
  have hne : m.urls ≠ [] := by
    intro h
    have : localPaths m = [] := by simp [localPaths, h]
    exact hlp this
  have hl1 : ¬ (localPaths m).length = 1 := by omega
  refine ⟨?_, ?_, ?_, ?_⟩
  · unfold process_clipboard_data classifyUrls
    simp only [hu, if_true, hne, if_false, hlp, hl1, fileTopText]
  · rintro ⟨uf, hufm, huf⟩ ⟨ud, hudm, hud⟩
    have hnf : 0 < ((localPaths m).filter (fun u => u.isFile)).length :=
      List.length_pos.mpr (List.ne_nil_of_mem (List.mem_filter.mpr ⟨hufm, huf⟩))
    have hnd : 0 < ((localPaths m).filter (fun u => u.isDir)).length :=
      List.length_pos.mpr (List.ne_nil_of_mem (List.mem_filter.mpr ⟨hudm, hud⟩))
    simp [fileBottomTemplate, hnf, hnd]
  · intro hnofile
    have hnf : ((localPaths m).filter (fun u => u.isFile)).length = 0 := by
      rw [List.length_eq_zero]
      rw [List.filter_eq_nil_iff]
      intro u hm
      simp [hnofile u hm]
    obtain ⟨u, hum⟩ := List.exists_mem_of_ne_nil _ hlp
    have hud : u.isDir = true := by
      rcases hfd u hum with h | h
      · rw [hnofile u hum] at h; cases h
      · exact h
    have hnd : 0 < ((localPaths m).filter (fun u => u.isDir)).length :=
      List.length_pos.mpr (List.ne_nil_of_mem (List.mem_filter.mpr ⟨hum, hud⟩))
    simp [fileBottomTemplate, hnf, hnd]
  · intro hnodir
    have hnd : ((localPaths m).filter (fun u => u.isDir)).length = 0 := by
      rw [List.length_eq_zero]
      rw [List.filter_eq_nil_iff]
      intro u hm
      simp [hnodir u hm]
    simp [fileBottomTemplate, hnd]

theorem lookup_updateEntries_self (ps : List (Nat × PopupState)) (pid : Nat)
    (f : PopupState → PopupState) :
    lookupEntry pid (updateEntries ps pid f) = (lookupEntry pid ps).map f := by
  induction ps with
  | nil => rfl
  | cons e es ih =>
    obtain ⟨k, v⟩ := e
    by_cases h : k = pid <;> simp [updateEntries, lookupEntry, h, ih]

theorem lookup_updateEntries_ne (ps : List (Nat × PopupState)) (pid q : Nat)
    (f : PopupState → PopupState) (h : q ≠ pid) :
    lookupEntry q (updateEntries ps pid f) = lookupEntry q ps := by
  induction ps with
  | nil => rfl
  | cons e es ih =>
    obtain ⟨k, v⟩ := e
    by_cases hq : k = q
    · have hk : ¬ k = pid := by omega
      simp [updateEntries, lookupEntry, hq, hk, h]
    · simp [updateEntries, lookupEntry, hq, ih]

theorem lookup_append_of_some {l1 l2 : List (Nat × PopupState)} {k : Nat}
    {v : PopupState} (h : lookupEntry k l1 = some v) :
    lookupEntry k (l1 ++ l2) = some v := by
  induction l1 with
  | nil => simp [lookupEntry] at h
  | cons e es ih =>
    obtain ⟨a, b⟩ := e
    by_cases hk : a = k
    · simp [lookupEntry, hk] at h ⊢
      exact h
    · simp [lookupEntry, hk] at h ⊢
      exact ih h

theorem lookup_append_of_none {l1 l2 : List (Nat × PopupState)} {k : Nat}
    (h : lookupEntry k l1 = none) :
    lookupEntry k (l1 ++ l2) = lookupEntry k l2 := by
  induction l1 with
  | nil => rfl
  | cons e es ih =>
    obtain ⟨a, b⟩ := e
    by_cases hk : a = k
    · simp [lookupEntry, hk] at h
    · simp [lookupEntry, hk] at h ⊢
      exact ih h

theorem lookup_eq_none_of_keys_ne {ps : List (Nat × PopupState)} {k : Nat}
    (h : ∀ e ∈ ps, e.1 ≠ k) : lookupEntry k ps = none := by
  induction ps with
  | nil => rfl
  | cons e es ih =>
    obtain ⟨a, b⟩ := e
    have ha : ¬ a = k := h (a, b) (by simp)
    simp [lookupEntry, ha]
    exact ih (fun x hx => h x (by simp [hx]))

theorem lookupEntry_some_mem {pid : Nat} {ps : List (Nat × PopupState)}
    {v : PopupState} (h : lookupEntry pid ps = some v) : (pid, v) ∈ ps := by
  induction ps with
  | nil => simp [lookupEntry] at h
  | cons e es ih =>
    obtain ⟨a, b⟩ := e
    by_cases ha : a = pid
    · subst ha
      simp [lookupEntry] at h
      simp [h]
    · simp [lookupEntry, ha] at h
      simp [ih h]

theorem slide_out_is_sliding (p : PopupState) :
    (slide_out p).is_sliding_out = true := by
  cases h : p.is_sliding_out <;> simp [slide_out, h]

theorem show_popup_result (s : MonitorState) (d : ClipData) (now : Nat)
    (vid : Nat) (hfind : findStationary s = some vid)
    (hvsticky : isStickyP s vid = false) :
    (show_popup s d now).2 = s.nextId ∧
    (show_popup s d now).1.active_popups = s.active_popups ++ [s.nextId] ∧
    (show_popup s d now).1.popups =
      updateEntries s.popups vid slide_out ++
        [(s.nextId, initPopup d s.current_color_mode now)] := by
  unfold show_popup
  rw [hfind]
  simp [hvsticky, updatePopup, set_cooldown]

theorem show_popup_result_none (s : MonitorState) (d : ClipData) (now : Nat)
    (hfind : findStationary s = none) :
    (show_popup s d now).2 = s.nextId ∧
    (show_popup s d now).1.active_popups = s.active_popups ++ [s.nextId] ∧
    (show_popup s d now).1.popups =
      s.popups ++ [(s.nextId, initPopup d s.current_color_mode now)] := by
  unfold show_popup
  rw [hfind]
  simp [set_cooldown]

theorem active_lt_nextId (s : MonitorState)
    (hkeys : ∀ e ∈ s.popups, e.1 < s.nextId)
    (hsome : ∀ pid ∈ s.active_popups, (lookupPopup s pid).isSome = true) :
    ∀ pid ∈ s.active_popups, pid < s.nextId := by
  intro pid hmem
  obtain ⟨w, hw⟩ := Option.isSome_iff_exists.mp (hsome pid hmem)
  exact hkeys (pid, w) (lookupEntry_some_mem hw)

theorem show_popup_victim_slides (s : MonitorState) (d : ClipData) (now : Nat)
    (vid : Nat) (pv : PopupState)
    (hfind : findStationary s = some vid)
    (hvsticky : isStickyP s vid = false)
    (hpv : lookupEntry vid s.popups = some pv) :
    isSlidingOut (show_popup s d now).1 vid = true := by
  have hres := show_popup_result s d now vid hfind hvsticky
  have hlv : lookupEntry vid (show_popup s d now).1.popups =
      some (slide_out pv) := by
    rw [hres.2.2]
    apply lookup_append_of_some
    rw [lookup_updateEntries_self, hpv]
    rfl
  unfold isSlidingOut lookupPopup
  rw [hlv]
  exact slide_out_is_sliding pv

theorem show_popup_other_unchanged (s : MonitorState) (d : ClipData) (now : Nat)
    (vid pid : Nat)
    (hkeys : ∀ e ∈ s.popups, e.1 < s.nextId)
    (hsome : ∀ p ∈ s.active_popups, (lookupPopup s p).isSome = true)
    (hfind : findStationary s = some vid)
    (hvsticky : isStickyP s vid = false)
    (hmem : pid ∈ s.active_popups) (hne : pid ≠ vid) :
    isSlidingOut (show_popup s d now).1 pid = isSlidingOut s pid := by
  have hres := show_popup_result s d now vid hfind hvsticky
  have hupd := lookup_updateEntries_ne s.popups vid pid slide_out hne
  cases ho : lookupEntry pid s.popups with
  | some w =>
    have hl : lookupEntry pid (show_popup s d now).1.popups = some w := by
      rw [hres.2.2]
      exact lookup_append_of_some (by rw [hupd, ho])
    unfold isSlidingOut lookupPopup
    rw [hl, ho]
  | none =>
    have hnid : pid ≠ s.nextId :=
      Nat.ne_of_lt (active_lt_nextId s hkeys hsome pid hmem)
    have hl : lookupEntry pid (show_popup s d now).1.popups = none := by
      rw [hres.2.2]
      rw [lookup_append_of_none (by rw [hupd, ho])]
      simp [lookupEntry, Ne.symm hnid]
    unfold isSlidingOut lookupPopup
    rw [hl, ho]

theorem show_popup_none_unchanged (s : MonitorState) (d : ClipData) (now : Nat)
    (pid : Nat)
    (hkeys : ∀ e ∈ s.popups, e.1 < s.nextId)
    (hsome : ∀ p ∈ s.active_popups, (lookupPopup s p).isSome = true)
    (hfind : findStationary s = none)
    (hmem : pid ∈ s.active_popups) :
    isSlidingOut (show_popup s d now).1 pid = isSlidingOut s pid := by
  have hres := show_popup_result_none s d now hfind
  cases ho : lookupEntry pid s.popups with
  | some w =>
    have hl : lookupEntry pid (show_popup s d now).1.popups = some w := by
      rw [hres.2.2]
      exact lookup_append_of_some ho
    unfold isSlidingOut lookupPopup
    rw [hl, ho]
  | none =>
    have hnid : pid ≠ s.nextId :=
      Nat.ne_of_lt (active_lt_nextId s hkeys hsome pid hmem)
    have hl : lookupEntry pid (show_popup s d now).1.popups = none := by
      rw [hres.2.2, lookup_append_of_none ho]
      simp [lookupEntry, Ne.symm hnid]
    unfold isSlidingOut lookupPopup
    rw [hl, ho]

/-- The well-formedness and at-most-one-stationary hypotheses of the C1
theorem are inductive: after any `show_popup` on a state satisfying them
(with no pinned live popup, as on the handler's creation path), the NEW
popup is again the only non-exiting live popup.  This justifies reading
them as reachable-state invariants. -/
theorem show_popup_reestablishes_unique_stationary (s : MonitorState)
    (d : ClipData) (now : Nat)
    (hkeys : ∀ e ∈ s.popups, e.1 < s.nextId)
    (hsome : ∀ pid ∈ s.active_popups, (lookupPopup s pid).isSome = true)
    (hnosticky : ∀ pid ∈ s.active_popups, isStickyP s pid = false)
    (hinv : ∀ p ∈ s.active_popups, ∀ q ∈ s.active_popups,
      isSlidingOut s p = false → isSlidingOut s q = false → p = q) :
    ∀ p ∈ (show_popup s d now).1.active_popups,
      isSlidingOut (show_popup s d now).1 p = false →
      p = (show_popup s d now).2 := by
  intro p hpmem hpslide
  cases hfind : findStationary s with
  | none =>
    have hres := show_popup_result_none s d now hfind
    rw [hres.2.1] at hpmem
    rcases List.mem_append.mp hpmem with hold | hnew
    · exfalso
      have hall := List.find?_eq_none.mp hfind p (List.mem_reverse.mpr hold)
      have hbefore : isSlidingOut s p = true := by
        simpa using hall
      rw [show_popup_none_unchanged s d now p hkeys hsome hfind hold, hbefore]
        at hpslide
      cases hpslide
    · rw [hres.1]
      simpa using hnew
  | some vid =>
    have hvmem : vid ∈ s.active_popups :=
      List.mem_reverse.mp (List.mem_of_find?_eq_some hfind)
    have hvslide : isSlidingOut s vid = false := by
      have h := List.find?_some hfind
      simpa using h
    have hvsticky : isStickyP s vid = false := hnosticky vid hvmem
    have hres := show_popup_result s d now vid hfind hvsticky
    rw [hres.2.1] at hpmem
    rcases List.mem_append.mp hpmem with hold | hnew
    · exfalso
      by_cases hpv : p = vid
      · subst hpv
        obtain ⟨pv, hpv⟩ := Option.isSome_iff_exists.mp (hsome p hold)
        rw [show_popup_victim_slides s d now p pv hfind hvsticky hpv] at hpslide
        cases hpslide
      · rw [show_popup_other_unchanged s d now vid p hkeys hsome hfind hvsticky
          hold hpv] at hpslide
        exact hpv (hinv p hold vid hvmem hpslide hvslide)
    · rw [hres.1]
      simpa using hnew

/-- C1: on every creation, exactly one victim among the previously-live
popups begins exit, before the new popup is appended: the popup
`show_popup`'s reverse walk finds, which under the handler's no-pinned
guard (`hnosticky`) and the reachable-state invariant that at most one
live popup is non-exiting (`huniq`, re-established after every creation
by `show_popup_reestablishes_unique_stationary`) is the unique — hence
trivially the oldest — non-pinned, non-exiting live notification (the
current stationary one); every other live popup's exit status is
unchanged, and the new popup is appended fresh and not exiting. -/
theorem show_popup_evicts_current_stationary (s : MonitorState) (d : ClipData)
    (now : Nat) (vid : Nat)
    (hkeys : ∀ e ∈ s.popups, e.1 < s.nextId)
    (hsome : ∀ pid ∈ s.active_popups, (lookupPopup s pid).isSome = true)
    (hnosticky : ∀ pid ∈ s.active_popups, isStickyP s pid = false)
    (hfind : findStationary s = some vid)
    (huniq : ∀ pid ∈ s.active_popups, isSlidingOut s pid = false → pid = vid) :
    (vid ∈ s.active_popups ∧ isSlidingOut s vid = false ∧
     isStickyP s vid = false) ∧
    (∀ pid ∈ s.active_popups,
      (isSlidingOut s pid = false ∧
       isSlidingOut (show_popup s d now).1 pid = true) ↔ pid = vid) ∧
    (∀ pid ∈ s.active_popups, pid ≠ vid →
      isSlidingOut (show_popup s d now).1 pid = isSlidingOut s pid) ∧
    ((show_popup s d now).1.active_popups =
       s.active_popups ++ [(show_popup s d now).2] ∧
     (show_popup s d now).2 ∉ s.active_popups ∧
     isSlidingOut (show_popup s d now).1 (show_popup s d now).2 = false) := by
  have hvmem : vid ∈ s.active_popups :=
    List.mem_reverse.mp (List.mem_of_find?_eq_some hfind)
  have hvslide : isSlidingOut s vid = false := by
    have h := List.find?_some hfind
    simpa using h
  have hvsticky : isStickyP s vid = false := hnosticky vid hvmem
  obtain ⟨pv, hpv⟩ := Option.isSome_iff_exists.mp (hsome vid hvmem)
  have hres := show_popup_result s d now vid hfind hvsticky
  have hvafter : isSlidingOut (show_popup s d now).1 vid = true :=
    show_popup_victim_slides s d now vid pv hfind hvsticky hpv
  refine ⟨⟨hvmem, hvslide, hvsticky⟩, ?_,
          fun pid hmem hne =>
            show_popup_other_unchanged s d now vid pid hkeys hsome hfind
              hvsticky hmem hne,
          ?_, ?_, ?_⟩
  · intro pid hmem
    constructor
    · intro ⟨hb, _⟩
      exact huniq pid hmem hb
    · intro he
      subst he
      exact ⟨hvslide, hvafter⟩
  · rw [hres.2.1, hres.1]
  · rw [hres.1]
    intro hmem
    exact absurd (active_lt_nextId s hkeys hsome s.nextId hmem)
      (Nat.lt_irrefl s.nextId)
  · rw [hres.1]
    have hnone : lookupEntry s.nextId s.popups = none :=
      lookup_eq_none_of_keys_ne (fun e he => Nat.ne_of_lt (hkeys e he))
    have hnupd : lookupEntry s.nextId
        (updateEntries s.popups vid slide_out) = none := by
      by_cases hv : s.nextId = vid
      · subst hv
        rw [lookup_updateEntries_self, hnone]
        rfl
      · rw [lookup_updateEntries_ne _ _ _ _ hv, hnone]
    have hl : lookupEntry s.nextId (show_popup s d now).1.popups =
        some (initPopup d s.current_color_mode now) := by
      rw [hres.2.2, lookup_append_of_none hnupd]
      simp [lookupEntry]
    unfold isSlidingOut lookupPopup
    rw [hl]
    rfl

/-- C1 witness: with one stationary unpinned live popup (id 0), creating a
new popup makes exactly popup 0 begin exit. -/
theorem show_popup_evicts_witness :
    isSlidingOut (show_popup egMonitor egTextData 7).1 0 = true := by
  have h := show_popup_evicts_current_stationary egMonitor egTextData 7 0
    (by decide) (by decide) (by decide) (by decide) (by decide)
  exact ((h.2.1 0 (by decide)).mpr rfl).2

/-- C7 witness: the spec scenario — two files plus one folder — yields the
pluralized template `"3 个项目: {}"` and the three base names as label. -/
theorem classify_multi_paths_witness :
    process_clipboard_data egMimeMixed = some
      { type := "file", top_text := "x.txt\ny.txt\nz",
        bottom_template := some ("3 个项目: \x7b\x7d"),
        paths := ["/a/x.txt", "/a/y.txt", "/a/z"] } ∧
    fileBottomTemplate (localPaths egMimeMixed) = "3 个项目: \x7b\x7d" := by
  have h := classify_multi_paths egMimeMixed (by decide) (by decide) (by decide)
  constructor
  · rw [h.1]; decide
  · have ht := h.2.1 (by decide) (by decide)
    rw [ht]; decide

end Q3
